import Mathlib

/-!
# Verification of the bulk video-summarizer orchestration core

Shallow embedding of the request de-duplication, caching, and rate-limiting
orchestration logic of the summarizer bot:

* `db_utils.py`   — persistent Job store and Usage-Event store (SQLite),
  modelled as pure state-passing over a `DB` value;
* `youtube_utils.py` — resource-key extraction (`get_video_id`), reading-time
  estimation, and the backend-exception translation in `generate_summary`;
* `bot.py`        — the job orchestrator `process_video` and the batch driver
  `handle_multiple_videos`, including the final report rendering/truncation;
* `discord_utils.py` — `sanitize_title_for_markdown` used by the report.

External network services (YouTube data API, transcript API, Gemini) are
modelled as an oracle (`Backend`): each call site receives the value or the
exception that the external call would produce.  Python exceptions are the
`Exn` type; a function that can propagate an exception to its caller returns
`Except Exn _`.  Python `str` values are Lean `String`s; Python `len`/slicing
count code points, matched here by `pyLen`/`pySlice` over `String.data`.
SQLite `NULL` text columns are modelled as the empty string `""` (the code
only ever tests these columns for truthiness or passes them through).
-/

namespace Bys

/-- Decidable equality of `Except` results, for evaluating the model on
concrete inputs. -/
instance {ε α : Type _} [DecidableEq ε] [DecidableEq α] : DecidableEq (Except ε α) := fun x y =>
  match x, y with
  | Except.ok a, Except.ok b =>
    if h : a = b then isTrue (by rw [h]) else isFalse (by intro hc; cases hc; exact h rfl)
  | Except.error e, Except.error f =>
    if h : e = f then isTrue (by rw [h]) else isFalse (by intro hc; cases hc; exact h rfl)
  | Except.ok _, Except.error _ => isFalse (by intro hc; cases hc)
  | Except.error _, Except.ok _ => isFalse (by intro hc; cases hc)

/-- ASCII whitespace recognised by Python `str.split()` / `str.strip()`
(the transcripts and titles handled by the program are within this set). -/
def isPySpace (c : Char) : Bool :=
  c = ' ' || c = '\t' || c = '\n' || c = '\x0d' || c = '\x0b' || c = '\x0c'

/-- Python `s.replace(pat, rep)` for a single-character pattern, replacing
every occurrence (all `str.replace` calls in the repository use
single-character patterns). -/
def pyReplaceChar (s : String) (pat : Char) (rep : String) : String :=
  String.mk (s.data.foldr (fun c acc => if c = pat then rep.data ++ acc else c :: acc) [])

/-- Python `s.strip()`: drop leading and trailing whitespace. -/
def pyStrip (s : String) : String :=
  String.mk (((s.data.dropWhile (fun c => isPySpace c)).reverse.dropWhile
    (fun c => isPySpace c)).reverse)

/-- Python `len(s)` (counts code points, as Lean `String.data.length` does). -/
def pyLen (s : String) : Nat := s.data.length

/-- Python `s[:n]` (slices by code points). -/
def pySlice (s : String) (n : Nat) : String := String.mk (s.data.take n)

/-- Number of words of Python `len(text.split())`: maximal runs of
non-whitespace.  The `inWord` flag records whether the previous character
was inside a word. -/
def countWordsAux : List Char → Bool → Nat
  | [], _ => 0
  | c :: cs, inWord =>
    if isPySpace c then countWordsAux cs false
    else (if inWord then 0 else 1) + countWordsAux cs true

/-- Model of `youtube_utils.estimate_reading_time`: `math.ceil(len(text.split())/200)`
minutes, with the zero case mapped to "~1 min read" and an "s" appended for
more than one minute. -/
def estimate_reading_time (text : String) : String :=
  let word_count := countWordsAux text.data false
  let minutes := (word_count + 199) / 200
  if minutes = 0 then "~1 min read"
  else "~" ++ toString minutes ++ " min" ++ (if minutes > 1 then "s" else "") ++ " read"

/-- Character class `[0-9A-Za-z_-]` of the video-id regexes. -/
def isVidChar (c : Char) : Bool :=
  c.isAlphanum || c = '_' || c = '-'

/-- Match `([0-9A-Za-z_-]{11})` at the head of the input: exactly eleven
class characters (more may follow, matched by the regex tail `.*`). -/
def take11 (cs : List Char) : Option String :=
  let t := cs.take 11
  if t.length = 11 && t.all isVidChar then some (String.mk t) else none

/-- One attempt of `(?:v=|\/)([0-9A-Za-z_-]{11}).*` anchored at the current
position: the alternation tries `v=` and then `/`, each followed by the
eleven-character group. -/
def vidAt : List Char → Option String
  | 'v' :: '=' :: tl => take11 tl
  | '/' :: tl => take11 tl
  | _ => none

/-- Search of the first video-id pattern (`re.search`): leftmost position at which
`vidAt` succeeds. -/
def searchVid : List Char → Option String
  | [] => none
  | c :: rest =>
    match vidAt (c :: rest) with
    | some s => some s
    | none => searchVid rest

/-- Literal head `youtu\.be\/` of the second video-id pattern. -/
def youtuBeHead : List Char → Option (List Char)
  | 'y' :: 'o' :: 'u' :: 't' :: 'u' :: '.' :: 'b' :: 'e' :: '/' :: tl => some tl
  | _ => none

/-- Search of the second pattern `youtu\.be\/([0-9A-Za-z_-]{11})`. -/
def searchYoutuBe : List Char → Option String
  | [] => none
  | c :: rest =>
    match youtuBeHead (c :: rest) with
    | some tl =>
      match take11 tl with
      | some s => some s
      | none => searchYoutuBe rest
    | none => searchYoutuBe rest

/-- Model of `youtube_utils.get_video_id`: try the two regex patterns in order and
return the captured eleven-character token, or `none` for unrecognised
input. -/
def get_video_id (url : String) : Option String :=
  match searchVid url.data with
  | some s => some s
  | none => searchYoutuBe url.data

/-- Job lifecycle status column of the `summaries` table. -/
inductive Status
  | processing
  | complete
  | failed
deriving DecidableEq

/-- One row of the `summaries` table (`youtube_url` is `UNIQUE`); `NULL`
text columns are modelled as `""`. -/
structure SummaryRow where
  url : String
  video_title : String
  channel_title : String
  summary_text : String
  status : Status
  requested_at : String
deriving DecidableEq

/-- One row of the append-only `user_usage` table. -/
structure UsageEvent where
  user_id : Int
  url : String
  summarized_at : Nat
deriving DecidableEq

/-- The persistent store: the `summaries` (Job) table and the `user_usage`
(Usage Event) table. -/
structure DB where
  summaries : List SummaryRow
  usage : List UsageEvent
deriving DecidableEq

/-- Model of `db_utils.get_summary_from_db`: `SELECT ... WHERE youtube_url = ?`,
first (unique) matching row or `none`. -/
def get_summary_from_db (db : DB) (url : String) : Option SummaryRow :=
  db.summaries.find? (fun r => r.url == url)

/-- Model of `db_utils.add_summary_to_db`: `INSERT OR REPLACE` of a `complete` row
(the conflicting row, if any, is removed and the fresh row appended with a
fresh `CURRENT_TIMESTAMP`). -/
def add_summary_to_db (db : DB) (url video_title channel_title summary_text now_str : String) : DB :=
  { db with summaries :=
      db.summaries.filter (fun r => !(r.url == url)) ++
        [{ url := url, video_title := video_title, channel_title := channel_title,
           summary_text := summary_text, status := Status.complete, requested_at := now_str }] }

/-- Model of `db_utils.update_summary_status`: `UPDATE summaries SET status = ? WHERE
youtube_url = ?`. -/
def update_summary_status (db : DB) (url : String) (st : Status) : DB :=
  { db with summaries :=
      db.summaries.map (fun r => if r.url == url then { r with status := st } else r) }

/-- Model of `db_utils.insert_processing_record`: insert a fresh `processing` row and
return its id, or `none` on the `UNIQUE` conflict (`sqlite3.IntegrityError`)
when a row for the url already exists. -/
def insert_processing_record (db : DB) (url now_str : String) : Option Nat × DB :=
  if db.summaries.any (fun r => r.url == url) then
    (none, db)
  else
    (some db.summaries.length,
     { db with summaries := db.summaries ++
        [{ url := url, video_title := "", channel_title := "", summary_text := "",
           status := Status.processing, requested_at := now_str }] })

/-- Model of `db_utils.delete_summary_record`: `DELETE FROM summaries WHERE
youtube_url = ?`. -/
def delete_summary_record (db : DB) (url : String) : DB :=
  { db with summaries := db.summaries.filter (fun r => !(r.url == url)) }

/-- Model of `db_utils.log_user_usage`: append one usage event (its
`CURRENT_TIMESTAMP` is the ambient time `now_ts`). -/
def log_user_usage (db : DB) (user_id : Int) (url : String) (now_ts : Nat) : DB :=
  { db with usage := db.usage ++ [{ user_id := user_id, url := url, summarized_at := now_ts }] }

/-- Model of `db_utils.get_user_usage_today`: count the user's usage events with
timestamp at or after the start of the current UTC day. -/
def get_user_usage_today (db : DB) (user_id : Int) (start_of_today : Nat) : Nat :=
  (db.usage.filter (fun e => e.user_id == user_id && decide (start_of_today ≤ e.summarized_at))).length

/-- Python exception flowing through `process_video`: the custom
`QuotaExceededError`, the transcript-api `TranscriptsDisabled` /
`NoTranscriptFound` pair (classified together by the code), and any other
`Exception` carrying its message. -/
inductive Exn
  | quotaExceeded
  | transcriptUnavailable
  | other (msg : String)
deriving DecidableEq

/-- Exception raised by the raw Gemini call inside
`youtube_utils.generate_summary`: `google.api_core.exceptions.ResourceExhausted`
(with its string form) or any other exception. -/
inductive GenErr
  | resourceExhausted (msg : String)
  | genOther (msg : String)
deriving DecidableEq

/-- Display metadata returned by `youtube_utils.get_video_details` (the
fields are extracted, the duration parsed, and the publish date formatted
before return; the oracle supplies the already-shaped record). -/
structure Details where
  title : String
  duration : String
  published_at : String
  channel_title : String
deriving DecidableEq

/-- Oracle for the external services: the result (value or exception) that
each backend call would produce during this invocation.
`get_video_details` may raise, return `none` (empty `items`), or return the
record; `get_transcript` may raise `TranscriptsDisabled`/`NoTranscriptFound`
or another exception; `generate_summary_raw` is the Gemini call inside
`youtube_utils.generate_summary`, before its exception translation. -/
structure Backend where
  get_video_details : String → Except Exn (Option Details)
  get_transcript : String → Except Exn (String × String)
  generate_summary_raw : String → String → String → Except GenErr String

/-- Test that `p` occurs at the head of `s` (Bool-valued, for the Python `in` test). -/
def startsWithList : List Char → List Char → Bool
  | _, [] => true
  | [], _ :: _ => false
  | c :: cs, p :: ps => c == p && startsWithList cs ps

/-- Python `pat in s` substring test. -/
def hasSubList (s pat : List Char) : Bool :=
  match s with
  | [] => startsWithList [] pat
  | _ :: rest => startsWithList s pat || hasSubList rest pat

/-- Model of `youtube_utils.generate_summary`: run the Gemini call and translate a
`ResourceExhausted` whose text mentions "exceeded your current quota" into
the custom `QuotaExceededError`; re-raise anything else unchanged. -/
def generate_summary (b : Backend) (transcript video_title language_code : String) :
    Except Exn String :=
  match b.generate_summary_raw transcript video_title language_code with
  | Except.ok s => Except.ok s
  | Except.error (GenErr.resourceExhausted msg) =>
    if hasSubList msg.data "exceeded your current quota".data then
      Except.error Exn.quotaExceeded
    else
      Except.error (Exn.other msg)
  | Except.error (GenErr.genOther msg) => Except.error (Exn.other msg)

/-- The summary-details dictionary returned by `process_video` for the
`cached` and `complete` statuses. -/
structure SummaryData where
  video_title : String
  summary_text : String
  video_id : String
  duration : String
  reading_time : String
  published_at : String
  channel_title : String
  summary_created_at : Option String
deriving DecidableEq

/-- The `(status, data)` pairs returned by `process_video`, one constructor
per status string with the shape of its `data` payload: `error_msg` is the
`'error'` status carrying a bare string (unavailable client), `error_pair`
the `'error'` status carrying a `(message, video_title)` tuple. -/
inductive Outcome
  | cached (d : SummaryData)
  | complete (d : SummaryData)
  | limit_exceeded (msg : String)
  | invalid_url (msg : String)
  | in_progress (msg : String)
  | quota_exceeded (msg : String) (video_title : String)
  | error_msg (msg : String)
  | error_pair (msg : String) (video_title : String)
deriving DecidableEq

/-- Ambient configuration and clock of one invocation: client handle
availability, the `USER_DAILY_LIMIT` environment value, the current time
(as a timestamp for usage rows, the UTC-midnight cutoff for quota counting,
and the string stored in `requested_at` columns), and the stdlib
`datetime.strptime`/`strftime` reformatting used for the cached-summary
creation date (treated as an environment function: `none` models the
`ValueError`/`TypeError` that the code swallows). -/
structure Ctx where
  client_available : Bool
  USER_DAILY_LIMIT : Nat
  now_ts : Nat
  start_of_today : Nat
  now_str : String
  format_date : String → Option String

/-- Observable calls to the quota evaluator and the generation backend made
during an invocation, in order. -/
inductive Event
  | quotaCheck
  | detailsCall
  | transcriptCall
  | summaryCall
deriving DecidableEq

/-- Message for an unavailable YouTube client. -/
def client_unavailable_msg : String :=
  "YouTube API client is not available. Please check the bot's console."

/-- Message for an unrecognised URL. -/
def invalid_url_msg (url : String) : String :=
  "'" ++ url ++ "' is not a valid YouTube URL."

/-- Message for the daily-limit rejection. -/
def limit_msg (limit : Nat) : String :=
  "You have reached your daily summary limit of **" ++ toString limit ++
    "**. Please try again tomorrow."

/-- Message for losing the insert race. -/
def in_progress_msg (url : String) : String :=
  "Already processing this video: " ++ url

/-- Message for backend quota exhaustion. -/
def quota_msg : String := "The global API quota has been hit."

/-- Message for an unavailable transcript. -/
def transcripts_disabled_msg : String := "Transcripts are disabled for this video."

/-- Message for any other generation failure. -/
def unexpected_msg : String :=
  "An unexpected error occurred. This could be due to a non-public transcript or an internal issue. The error has been logged."

/-- Message of the `ValueError` raised for missing video details. -/
def details_value_error : String := "Could not fetch video details."

/-- The three `except` clauses of `process_video` (bot.py lines 149-161):
mark the Job row `failed` and classify the exception into the
`quota_exceeded` or `error` status, carrying the recovered title. -/
def handleExn (e : Exn) (video_title : String) (db : DB) (url : String) : Outcome × DB :=
  match e with
  | Exn.quotaExceeded =>
    (Outcome.quota_exceeded quota_msg video_title, update_summary_status db url Status.failed)
  | Exn.transcriptUnavailable =>
    (Outcome.error_pair transcripts_disabled_msg video_title,
     update_summary_status db url Status.failed)
  | Exn.other _ =>
    (Outcome.error_pair unexpected_msg video_title, update_summary_status db url Status.failed)

/-- The `try` block of `process_video` (bot.py lines 127-161): metadata,
transcript, summary, persist, log usage; every exception is caught and
classified by `handleExn` with the title recovered so far (`"N/A"` before
the details call succeeds). -/
def runGeneration (b : Backend) (ctx : Ctx) (db : DB) (url : String) (user : Int)
    (video_id : String) : Outcome × DB × List Event :=
  match b.get_video_details video_id with
  | Except.error e =>
    let p := handleExn e "N/A" db url
    (p.1, p.2, [Event.detailsCall])
  | Except.ok none =>
    let p := handleExn (Exn.other details_value_error) "N/A" db url
    (p.1, p.2, [Event.detailsCall])
  | Except.ok (some d) =>
    match b.get_transcript video_id with
    | Except.error e =>
      let p := handleExn e d.title db url
      (p.1, p.2, [Event.detailsCall, Event.transcriptCall])
    | Except.ok (transcript_text, lang_code) =>
      match generate_summary b transcript_text d.title lang_code with
      | Except.error e =>
        let p := handleExn e d.title db url
        (p.1, p.2, [Event.detailsCall, Event.transcriptCall, Event.summaryCall])
      | Except.ok summary_text =>
        let reading_time := estimate_reading_time summary_text
        let db2 := add_summary_to_db db url d.title d.channel_title summary_text ctx.now_str
        let db3 := log_user_usage db2 user url ctx.now_ts
        (Outcome.complete
          { video_title := d.title, summary_text := summary_text, video_id := video_id,
            duration := d.duration, reading_time := reading_time,
            published_at := d.published_at, channel_title := d.channel_title,
            summary_created_at := none },
         db3, [Event.detailsCall, Event.transcriptCall, Event.summaryCall])

/-- Model of `process_video` from the insert attempt onward (bot.py lines 123-161),
as a function of the store state at the moment of the insert: return
`in_progress` and do nothing further on a uniqueness conflict, otherwise
run the generation phase. -/
def process_from_insert (b : Backend) (ctx : Ctx) (db : DB) (url : String) (user : Int)
    (video_id : String) : Outcome × DB × List Event :=
  match insert_processing_record db url ctx.now_str with
  | (none, db1) => (Outcome.in_progress (in_progress_msg url), db1, [])
  | (some _, db1) => runGeneration b ctx db1 url user video_id

/-- The cached branch of `process_video` (bot.py lines 90-114): refresh the
display metadata (this backend call is outside any `try`, so its exception
propagates), reuse the stored summary, reformat the stored creation date. -/
def process_cached (b : Backend) (ctx : Ctx) (db : DB) (url video_id : String)
    (r : SummaryRow) : Except Exn (Outcome × DB × List Event) :=
  match b.get_video_details video_id with
  | Except.error e => Except.error e
  | Except.ok details =>
    let reading_time := estimate_reading_time r.summary_text
    let channel_title :=
      if r.channel_title == "" then
        match details with
        | some d => d.channel_title
        | none => r.channel_title
      else r.channel_title
    let created :=
      if r.requested_at == "" then r.requested_at
      else
        match ctx.format_date r.requested_at with
        | some f => f
        | none => r.requested_at
    Except.ok (Outcome.cached
      { video_title := r.video_title, summary_text := r.summary_text, video_id := video_id,
        duration := (match details with | some d => d.duration | none => "N/A"),
        reading_time := reading_time,
        published_at := (match details with | some d => d.published_at | none => "N/A"),
        channel_title := (if channel_title == "" then "N/A" else channel_title),
        summary_created_at := some created },
      db, [Event.detailsCall])

/-- Model of `process_video` when no complete cache hit was found (bot.py lines
81-125): quota check, `force_new` delete, retry-delete of a
`failed`/`processing` row, then the insert-and-generate phase. -/
def process_uncached (b : Backend) (ctx : Ctx) (db : DB) (url : String) (user : Int)
    (force_new : Bool) (video_id : String) : Except Exn (Outcome × DB × List Event) :=
  let current_usage := get_user_usage_today db user ctx.start_of_today
  if ctx.USER_DAILY_LIMIT ≤ current_usage then
    Except.ok (Outcome.limit_exceeded (limit_msg ctx.USER_DAILY_LIMIT), db, [Event.quotaCheck])
  else
    let db1 := if force_new then delete_summary_record db url else db
    let db2 :=
      match get_summary_from_db db1 url with
      | some r =>
        if r.status == Status.failed || r.status == Status.processing then
          delete_summary_record db1 url
        else db1
      | none => db1
    let res := process_from_insert b ctx db2 url user video_id
    Except.ok (res.1, res.2.1, Event.quotaCheck :: res.2.2)

/-- Model of `bot.process_video`: client check, key extraction, cache lookup, then
the cached or the uncached path.  The `Except` layer carries any exception
the invocation propagates to its caller. -/
def process_video (b : Backend) (ctx : Ctx) (db : DB) (url : String) (user : Int)
    (force_new : Bool) : Except Exn (Outcome × DB × List Event) :=
  if ctx.client_available = false then
    Except.ok (Outcome.error_msg client_unavailable_msg, db, [])
  else
    match get_video_id url with
    | none => Except.ok (Outcome.invalid_url (invalid_url_msg url), db, [])
    | some video_id =>
      match (if force_new then none else get_summary_from_db db url) with
      | some r =>
        if r.status == Status.complete then
          process_cached b ctx db url video_id r
        else
          process_uncached b ctx db url user force_new video_id
      | none => process_uncached b ctx db url user force_new video_id

/-- Model of `discord_utils.sanitize_title_for_markdown`: strip brackets, escape
`*`, `_` and the backquote, replace newlines and carriage returns with
spaces, and trim. -/
def sanitize_title_for_markdown (title : String) : String :=
  let s1 := pyReplaceChar title '[' ""
  let s2 := pyReplaceChar s1 ']' ""
  let s3 := pyReplaceChar s2 '*' "\\*"
  let s4 := pyReplaceChar s3 '_' "\\_"
  let s5 := pyReplaceChar s4 '\x60' "\\\x60"
  let s6 := pyReplaceChar s5 '\n' " "
  let s7 := pyReplaceChar s6 '\x0d' " "
  pyStrip s7

/-- One entry of `results_log` in `handle_multiple_videos`. -/
structure LogEntry where
  title : String
  url : String
  status : String
  reason : Option String
deriving DecidableEq

/-- The `'status'` string of a skipped batch item (the exact code points of
the source file). -/
def skipped_status : String := "‚è© Skipped"

/-- The `'status'` string of a freshly summarized batch item. -/
def summarized_status : String := "‚úÖ Summarized"

/-- The `'status'` string of a cache-served batch item. -/
def cached_status : String := "üìÑ Cached"

/-- The `'status'` string of a failed batch item (warning variant). -/
def warn_failed_status : String := "‚ö†Ô∏è Failed"

/-- The `'status'` string of the batch item that exhausted the backend
quota (stop-sign variant). -/
def stop_failed_status : String := "üõë Failed"

/-- One rendered line of the final recap (bot.py lines 251-257): status,
markdown link with sanitized title, and the indented reason when present. -/
def render_log_line (e : LogEntry) : String :=
  let t := sanitize_title_for_markdown e.title
  let line := e.status ++ ": [" ++ t ++ "](" ++ e.url ++ ")"
  match e.reason with
  | some r => line ++ "\n> " ++ r
  | none => line

/-- Python `"\n".join`. -/
def joinLines : List String → String
  | [] => ""
  | [x] => x
  | x :: y :: rest => x ++ "\n" ++ joinLines (y :: rest)

/-- The joined per-item log of the recap embed. -/
def render_recap (log : List LogEntry) : String :=
  joinLines (log.map render_log_line)

/-- The embed-description cap (bot.py lines 261-262): a rendered log longer
than 4096 code points is cut to its first 4090 and the marker appended. -/
def truncate_recap (s : String) : String :=
  if 4096 < pyLen s then pySlice s 4090 ++ "\n..." else s

/-- Mutable loop state of `handle_multiple_videos`: the three counters, the
two latched hard-stop flags, and the accumulated report entries. -/
structure BatchAcc where
  success_count : Nat
  fail_count : Nat
  cached_count : Nat
  user_limit_hit : Bool
  quota_hit : Bool
  results_log : List LogEntry
deriving DecidableEq

/-- Loop state at batch start. -/
def initAcc : BatchAcc :=
  { success_count := 0, fail_count := 0, cached_count := 0,
    user_limit_hit := false, quota_hit := false, results_log := [] }

/-- Log entry recorded for a skipped item (its title defaults to the url). -/
def skip_entry (url : String) : LogEntry :=
  { title := url, url := url, status := skipped_status, reason := none }

/-- Message of the `ValueError` raised when the driver unpacks a bare
string `data` payload into `(error_message, video_title)` (bot.py line 231);
the three bare-string payloads are always longer than two characters. -/
def unpack_error_msg : String := "ValueError: too many values to unpack"

/-- The progress-title lookup of the driver (bot.py lines 195-204): fetch
the display title for the progress message and the log, swallowing any
exception and falling back to the url. -/
def fetch_progress_title (b : Backend) (url : String) : String × List Event :=
  match get_video_id url with
  | none => (url, [])
  | some vid =>
    match b.get_video_details vid with
    | Except.error _ => (url, [Event.detailsCall])
    | Except.ok none => (url, [Event.detailsCall])
    | Except.ok (some d) => (d.title, [Event.detailsCall])

/-- One iteration of the `handle_multiple_videos` loop (bot.py lines
181-233): skip when a hard-stop flag is latched, otherwise fetch the
progress title, invoke the orchestrator, and record the outcome.  The
`else` branch unpacks `data` into a pair, which raises a `ValueError` for
the bare-string payloads (`invalid_url`, `in_progress`, and the
client-unavailable `error`). -/
def batchStep (b : Backend) (ctx : Ctx) (acc : BatchAcc) (db : DB) (url : String)
    (user : Int) (force_new : Bool) : Except Exn (BatchAcc × DB × List Event) :=
  if acc.user_limit_hit then
    Except.ok ({ acc with
                 fail_count := acc.fail_count + 1
                 results_log := acc.results_log ++ [skip_entry url] }, db, [])
  else if acc.quota_hit then
    Except.ok ({ acc with
                 fail_count := acc.fail_count + 1
                 results_log := acc.results_log ++ [skip_entry url] }, db, [])
  else
    let pt := fetch_progress_title b url
    match process_video b ctx db url user force_new with
    | Except.error e => Except.error e
    | Except.ok (o, db', tr) =>
      let evs := pt.2 ++ tr
      match o with
      | Outcome.complete d =>
        Except.ok ({ acc with
                     success_count := acc.success_count + 1
                     results_log := acc.results_log ++
                       [{ title := d.video_title, url := url, status := summarized_status,
                          reason := none }] }, db', evs)
      | Outcome.cached d =>
        Except.ok ({ acc with
                     cached_count := acc.cached_count + 1
                     results_log := acc.results_log ++
                       [{ title := d.video_title, url := url, status := cached_status,
                          reason := none }] }, db', evs)
      | Outcome.limit_exceeded msg =>
        Except.ok ({ acc with
                     user_limit_hit := true
                     fail_count := acc.fail_count + 1
                     results_log := acc.results_log ++
                       [{ title := pt.1, url := url, status := warn_failed_status,
                          reason := some msg }] }, db', evs)
      | Outcome.quota_exceeded msg vt =>
        Except.ok ({ acc with
                     quota_hit := true
                     fail_count := acc.fail_count + 1
                     results_log := acc.results_log ++
                       [{ title := vt, url := url, status := stop_failed_status,
                          reason := some msg }] }, db', evs)
      | Outcome.error_pair msg vt =>
        Except.ok ({ acc with
                     fail_count := acc.fail_count + 1
                     results_log := acc.results_log ++
                       [{ title := vt, url := url, status := warn_failed_status,
                          reason := some msg }] }, db', evs)
      | Outcome.invalid_url _ => Except.error (Exn.other unpack_error_msg)
      | Outcome.in_progress _ => Except.error (Exn.other unpack_error_msg)
      | Outcome.error_msg _ => Except.error (Exn.other unpack_error_msg)

/-- The `for` loop of `handle_multiple_videos`, threading the loop state and
the store and concatenating the per-item backend-call events. -/
def batchLoop (b : Backend) (ctx : Ctx) (user : Int) (force_new : Bool) :
    BatchAcc → DB → List String → Except Exn (BatchAcc × DB × List Event)
  | acc, db, [] => Except.ok (acc, db, [])
  | acc, db, url :: rest =>
    match batchStep b ctx acc db url user force_new with
    | Except.error e => Except.error e
    | Except.ok (acc', db', evs) =>
      match batchLoop b ctx user force_new acc' db' rest with
      | Except.error e => Except.error e
      | Except.ok (accF, dbF, evsF) => Except.ok (accF, dbF, evs ++ evsF)

/-- Model of `bot.handle_multiple_videos`: client check, then the per-item loop
(presentation calls are not modelled; the recap rendering is
`recap_description_of`). -/
def handle_multiple_videos (b : Backend) (ctx : Ctx) (db : DB) (urls : List String)
    (user : Int) (force_new : Bool) : Except Exn (BatchAcc × DB × List Event) :=
  if ctx.client_available = false then Except.ok (initAcc, db, [])
  else batchLoop b ctx user force_new initAcc db urls

/-- The recap's detailed-log text: rendered entries, capped (bot.py lines
259-262). -/
def recap_description_of (acc : BatchAcc) : String :=
  truncate_recap (render_recap acc.results_log)

/-- Observer: is this the `complete` status? -/
def Outcome.isComplete : Outcome → Bool
  | Outcome.complete _ => true
  | _ => false

/-- Observer: is this the `cached` status? -/
def Outcome.isCached : Outcome → Bool
  | Outcome.cached _ => true
  | _ => false

/-- Observer: is this the `limit_exceeded` status? -/
def Outcome.isLimitExceeded : Outcome → Bool
  | Outcome.limit_exceeded _ => true
  | _ => false

/-- Observer: is this the `invalid_url` status? -/
def Outcome.isInvalidUrl : Outcome → Bool
  | Outcome.invalid_url _ => true
  | _ => false

/-- Observer: is this the bare-string `error` status? -/
def Outcome.isErrorMsg : Outcome → Bool
  | Outcome.error_msg _ => true
  | _ => false

/-- Observer: is this the `quota_exceeded` status? -/
def Outcome.isQuotaExceeded : Outcome → Bool
  | Outcome.quota_exceeded _ _ => true
  | _ => false

/-- Observer over the invocation, for stating claims: no complete cache hit
is found in step "Rate Limiting Check" of `process_video` (either
`force_new` is set or the stored row is absent or not `complete`). -/
def no_complete_hit (db : DB) (url : String) (force_new : Bool) : Bool :=
  match (if force_new then none else get_summary_from_db db url) with
  | some r => !(r.status == Status.complete)
  | none => true

/-- Observer over the backend oracle: the video title recovered before the
first generation failure (`"N/A"` unless the details call succeeded). -/
def recovered_title (b : Backend) (vid : String) : String :=
  match b.get_video_details vid with
  | Except.ok (some d) => d.title
  | _ => "N/A"

/-- Observer over the backend oracle: the exception raised by the first
failing call of the generation phase (details, transcript, then summary),
`none` when all three succeed. -/
def first_failure (b : Backend) (vid : String) : Option Exn :=
  match b.get_video_details vid with
  | Except.error e => some e
  | Except.ok none => some (Exn.other details_value_error)
  | Except.ok (some d) =>
    match b.get_transcript vid with
    | Except.error e => some e
    | Except.ok (tx, lang) =>
      match generate_summary b tx d.title lang with
      | Except.error e => some e
      | Except.ok _ => none

/-- Fixture: metadata record of the test video. -/
def dOk : Details :=
  { title := "T", duration := "10:00", published_at := "May 01, 2024", channel_title := "Chan" }

/-- Fixture: a backend on which every call succeeds. -/
def bOk : Backend :=
  { get_video_details := fun _ => Except.ok (some dOk)
    get_transcript := fun _ => Except.ok ("hello world", "en")
    generate_summary_raw := fun _ _ _ => Except.ok "S" }

/-- Fixture: a backend whose metadata call raises a network error. -/
def bDetailsBoom : Backend :=
  { get_video_details := fun _ => Except.error (Exn.other "network down")
    get_transcript := fun _ => Except.ok ("hello world", "en")
    generate_summary_raw := fun _ _ _ => Except.ok "S" }

/-- Fixture: a backend whose Gemini call reports quota exhaustion. -/
def bQuota : Backend :=
  { get_video_details := fun _ => Except.ok (some dOk)
    get_transcript := fun _ => Except.ok ("hello world", "en")
    generate_summary_raw := fun _ _ _ =>
      Except.error (GenErr.resourceExhausted "429 You exceeded your current quota.") }

/-- Fixture: configuration with a daily ceiling of 2, the clock at 100 and
UTC midnight at 50. -/
def ctx0 : Ctx :=
  { client_available := true, USER_DAILY_LIMIT := 2, now_ts := 100, start_of_today := 50,
    now_str := "2024-05-01 12:00:00", format_date := fun _ => none }

/-- Fixture: the test url (recognised by the first regex pattern). -/
def url0 : String := "https://youtu.be/abcdefghijk"

/-- Fixture: the video id of `url0`. -/
def vid0 : String := "abcdefghijk"

/-- Fixture: a `complete` Job row for `url0`. -/
def completeRow : SummaryRow :=
  { url := url0, video_title := "Old title", channel_title := "Old chan",
    summary_text := "Old summary", status := Status.complete,
    requested_at := "2024-04-30 10:00:00" }

/-- Fixture: the empty store. -/
def dbEmpty : DB := { summaries := [], usage := [] }

/-- Fixture: a store holding only the complete row for `url0`. -/
def dbCached : DB := { summaries := [completeRow], usage := [] }

/-- Fixture: user 1 at the ceiling (two usage events today), no Job rows. -/
def dbOver : DB :=
  { summaries := []
    usage := [{ user_id := 1, url := url0, summarized_at := 60 },
              { user_id := 1, url := url0, summarized_at := 70 }] }

/-- Fixture: user 1 at the ceiling and a complete Job row for `url0`. -/
def dbAtLimit : DB :=
  { summaries := [completeRow]
    usage := [{ user_id := 1, url := url0, summarized_at := 60 },
              { user_id := 1, url := url0, summarized_at := 70 }] }

/-- Fixture: one failed report entry whose rendered line is 104 code
points. -/
def c9entry : LogEntry :=
  { title := "t", url := "u", status := warn_failed_status,
    reason := some (String.mk (List.replicate 80 'r')) }

/-- Fixture: a batch report log — forty-five identical failed entries, so
the joined log is 4724 code points and the 4090 cut point falls strictly
inside the 39th entry. -/
def c9log : List LogEntry := List.replicate 45 c9entry

/-- A `find?` miss implies an `any` miss for the same predicate. -/
theorem find?_none_any_false {α : Type _} (l : List α) (p : α → Bool)
    (h : l.find? p = none) : l.any p = false := by
  cases hb : l.any p with
  | false => rfl
  | true =>
    obtain ⟨x, hx, hpx⟩ := List.any_eq_true.mp hb
    rw [List.find?_eq_none] at h
    exact absurd hpx (h x hx)

/-- Deleting a url leaves no row for it. -/
theorem get_summary_of_delete (db : DB) (url : String) :
    get_summary_from_db (delete_summary_record db url) url = none := by
  rw [get_summary_from_db, delete_summary_record, List.find?_eq_none]
  intro a ha
  have := (List.mem_filter.mp ha).2
  simp at this
  simp [this]

/-- After a delete, the uniqueness probe of the insert fails. -/
theorem any_of_delete (db : DB) (url : String) :
    (delete_summary_record db url).summaries.any (fun r => r.url == url) = false :=
  find?_none_any_false _ _ (get_summary_of_delete db url)

/-- List-level form of the status update: mapping the conditional status
rewrite commutes with the keyed lookup. -/
theorem find?_map_update (l : List SummaryRow) (url : String) (st : Status) :
    (l.map (fun r => if r.url == url then { r with status := st } else r)).find?
        (fun r => r.url == url) =
      (l.find? (fun r => r.url == url)).map (fun r => { r with status := st }) := by
  induction l with
  | nil => rfl
  | cons r rs ih =>
    simp only [List.map_cons]
    by_cases h : (r.url == url) = true
    · simp [List.find?, h]
    · have h' : (r.url == url) = false := by simpa using h
      simp only [h', Bool.false_eq_true, if_false, List.find?, ih]

/-- Lemma: `update_summary_status` rewrites the status of the stored row and
nothing else that `get_summary_from_db` can see. -/
theorem get_summary_of_update (db : DB) (url : String) (st : Status) :
    get_summary_from_db (update_summary_status db url st) url =
      (get_summary_from_db db url).map (fun r => { r with status := st }) :=
  find?_map_update db.summaries url st

/-- Appending one usage event for the user inside the window bumps the
day's count by one. -/
theorem get_user_usage_log (db : DB) (u : Int) (url : String) (ts sot : Nat)
    (h : sot ≤ ts) :
    get_user_usage_today (log_user_usage db u url ts) u sot =
      get_user_usage_today db u sot + 1 := by
  simp [get_user_usage_today, log_user_usage, List.filter_append, h]

/-- C1 — if the insert of the fresh `processing` row hits the uniqueness
conflict, `process_video` (from the insert attempt onward, the point at
which a concurrent winner is visible) returns `in_progress`, leaves the
store exactly as it was, and makes no backend call. -/
theorem c1_conflict_returns_in_progress (b : Backend) (ctx : Ctx) (db : DB) (url : String)
    (user : Int) (video_id : String)
    (h : (insert_processing_record db url ctx.now_str).1 = none) :
    process_from_insert b ctx db url user video_id =
      (Outcome.in_progress (in_progress_msg url), db, []) := by
  unfold process_from_insert
  unfold insert_processing_record at h ⊢
  by_cases hc : db.summaries.any (fun r => r.url == url) = true
  · simp [hc]
  · simp [hc] at h

/-- C1 witness: a store already holding a row for the url makes the insert
conflict, and the invocation returns `in_progress` without touching
anything. -/
theorem c1_witness :
    (insert_processing_record dbCached url0 ctx0.now_str).1 = none ∧
    process_from_insert bOk ctx0 dbCached url0 1 vid0 =
      (Outcome.in_progress (in_progress_msg url0), dbCached, []) :=
  ⟨by decide, c1_conflict_returns_in_progress bOk ctx0 dbCached url0 1 vid0 (by decide)⟩

/-- The insert-and-generate phase never produces the `limit_exceeded`
status. -/
theorem from_insert_not_limit (b : Backend) (ctx : Ctx) (db : DB) (url : String)
    (user : Int) (vid : String) :
    (process_from_insert b ctx db url user vid).1.isLimitExceeded = false := by
  unfold process_from_insert
  split
  · rfl
  · unfold runGeneration
    split
    · unfold handleExn
      split <;> rfl
    · rfl
    · split
      · unfold handleExn
        split <;> rfl
      · split
        · unfold handleExn
          split <;> rfl
        · rfl

/-- Under an available client and a recognised url, an invocation with no
complete cache hit runs the uncached path. -/
theorem process_video_uncached_eq (b : Backend) (ctx : Ctx) (db : DB) (url : String)
    (user : Int) (force_new : Bool) (vid : String)
    (hc : ctx.client_available = true) (hv : get_video_id url = some vid)
    (hnoc : no_complete_hit db url force_new = true) :
    process_video b ctx db url user force_new =
      process_uncached b ctx db url user force_new vid := by
  unfold process_video
  rw [hc]
  simp only [hv]
  cases force_new with
  | true => simp
  | false =>
    cases hcache : get_summary_from_db db url with
    | none => simp [hcache]
    | some r =>
      simp [no_complete_hit, hcache] at hnoc
      simp [hcache, hnoc]

/-- C2 — with no complete cache hit, the invocation is rejected with
`limit_exceeded` exactly when the user's count of usage events since UTC
midnight has reached the ceiling, and the rejection leaves the store
untouched (no Job row is created). -/
theorem c2_limit_rejection_iff (b : Backend) (ctx : Ctx) (db : DB) (url : String)
    (user : Int) (force_new : Bool) (vid : String)
    (hc : ctx.client_available = true) (hv : get_video_id url = some vid)
    (hnoc : no_complete_hit db url force_new = true) :
    (ctx.USER_DAILY_LIMIT ≤ get_user_usage_today db user ctx.start_of_today →
      process_video b ctx db url user force_new =
        Except.ok (Outcome.limit_exceeded (limit_msg ctx.USER_DAILY_LIMIT), db,
          [Event.quotaCheck])) ∧
    (get_user_usage_today db user ctx.start_of_today < ctx.USER_DAILY_LIMIT →
      ∀ o db' tr, process_video b ctx db url user force_new = Except.ok (o, db', tr) →
        o.isLimitExceeded = false) := by
  rw [process_video_uncached_eq b ctx db url user force_new vid hc hv hnoc]
  constructor
  · intro hle
    unfold process_uncached
    rw [if_pos hle]
  · intro hlt o db' tr h
    unfold process_uncached at h
    rw [if_neg (Nat.not_le.mpr hlt)] at h
    simp only [Except.ok.injEq, Prod.mk.injEq] at h
    have := from_insert_not_limit b ctx
      (match get_summary_from_db (if force_new then delete_summary_record db url else db) url with
       | some r =>
         if r.status == Status.failed || r.status == Status.processing then
           delete_summary_record (if force_new then delete_summary_record db url else db) url
         else (if force_new then delete_summary_record db url else db)
       | none => (if force_new then delete_summary_record db url else db))
      url user vid
    rw [h.1] at this
    exact this

/-- C2 witness: with the ceiling at 2 and two usage events today, the
invocation is rejected and the store is unchanged. -/
theorem c2_witness :
    process_video bOk ctx0 dbOver url0 1 false =
      Except.ok (Outcome.limit_exceeded (limit_msg ctx0.USER_DAILY_LIMIT), dbOver,
        [Event.quotaCheck]) :=
  (c2_limit_rejection_iff bOk ctx0 dbOver url0 1 false vid0 rfl (by decide) (by decide)).1
    (by decide)

/-- Every return of the uncached path records the quota check in its
trace. -/
theorem uncached_trace_has_quota (b : Backend) (ctx : Ctx) (db : DB) (url : String)
    (user : Int) (fn : Bool) (vid : String) (o : Outcome) (db' : DB) (tr : List Event)
    (h : process_uncached b ctx db url user fn vid = Except.ok (o, db', tr)) :
    Event.quotaCheck ∈ tr := by
  unfold process_uncached at h
  rcases le_or_lt ctx.USER_DAILY_LIMIT (get_user_usage_today db user ctx.start_of_today)
    with hle | hlt
  · rw [if_pos hle] at h
    simp only [Except.ok.injEq, Prod.mk.injEq] at h
    rw [← h.2.2]
    exact List.mem_singleton.mpr rfl
  · rw [if_neg (Nat.not_le.mpr hlt)] at h
    simp only [Except.ok.injEq, Prod.mk.injEq] at h
    rw [← h.2.2]
    exact List.mem_cons_self _ _

/-- Under an available client and a complete row for the url, the
invocation with `force_new = false` runs exactly the cached branch. -/
theorem process_video_cached_eq (b : Backend) (ctx : Ctx) (db : DB) (url vid : String)
    (user : Int) (r : SummaryRow)
    (hc : ctx.client_available = true) (hv : get_video_id url = some vid)
    (hrow : get_summary_from_db db url = some r) (hst : r.status = Status.complete) :
    process_video b ctx db url user false = process_cached b ctx db url vid r := by
  unfold process_video
  rw [hc]
  simp [hv, hrow, hst]

/-- C3 — a complete cached row short-circuits: the invocation returns
`cached` carrying the stored summary text, leaves the store untouched (so
no usage event is appended), and its only backend call is the metadata
refresh — no quota check and no summary-generation call.  Conversely, any
invocation whose trace skips the quota check produced `cached`,
`invalid_url`, or the client-unavailable `error`: the cached branch is the
only summary-producing path that bypasses the quota check. -/
theorem c3_cached_path (b : Backend) (ctx : Ctx) (db : DB) (url vid : String) (user : Int)
    (r : SummaryRow) (dres : Option Details)
    (hc : ctx.client_available = true) (hv : get_video_id url = some vid)
    (hrow : get_summary_from_db db url = some r) (hst : r.status = Status.complete)
    (hdet : b.get_video_details vid = Except.ok dres) :
    (∃ d, process_video b ctx db url user false =
        Except.ok (Outcome.cached d, db, [Event.detailsCall]) ∧
      d.summary_text = r.summary_text) ∧
    (∀ (db₀ : DB) (url₀ : String) (user₀ : Int) (fn : Bool) (o : Outcome) (db' : DB)
        (tr : List Event),
      process_video b ctx db₀ url₀ user₀ fn = Except.ok (o, db', tr) →
      Event.quotaCheck ∉ tr →
      (o.isCached || o.isInvalidUrl || o.isErrorMsg) = true) := by
  constructor
  · rw [process_video_cached_eq b ctx db url vid user r hc hv hrow hst]
    unfold process_cached
    rw [hdet]
    exact ⟨_, rfl, rfl⟩
  · intro db₀ url₀ user₀ fn o db' tr h htr
    unfold process_video at h
    split at h
    · simp only [Except.ok.injEq, Prod.mk.injEq] at h
      rw [← h.1]
      rfl
    · split at h
      · simp only [Except.ok.injEq, Prod.mk.injEq] at h
        rw [← h.1]
        rfl
      · rename_i v hvid
        split at h
        · rename_i rr hch
          split at h
          · unfold process_cached at h
            split at h
            · cases h
            · simp only [Except.ok.injEq, Prod.mk.injEq] at h
              rw [← h.1]
              rfl
          · exact absurd (uncached_trace_has_quota _ _ _ _ _ _ _ _ _ _ h) htr
        · exact absurd (uncached_trace_has_quota _ _ _ _ _ _ _ _ _ _ h) htr

/-- C3 witness: the cached fixture returns the stored text with a bare
metadata-refresh trace. -/
theorem c3_witness :
    ∃ d, process_video bOk ctx0 dbCached url0 5 false =
        Except.ok (Outcome.cached d, dbCached, [Event.detailsCall]) ∧
      d.summary_text = completeRow.summary_text :=
  (c3_cached_path bOk ctx0 dbCached url0 vid0 5 completeRow (some dOk) rfl (by decide)
    (by decide) rfl rfl).1

/-- C10 — a complete cached row is served identically to every requesting
user and under any usage-event table: the produced status/data and the
backend-call trace agree across runs (the cache key is the url string
alone), and each run leaves the store exactly as it was, so no usage event
is appended for any requester. -/
theorem c10_cache_requester_independent (b : Backend) (ctx : Ctx)
    (sums : List SummaryRow) (url vid : String) (r : SummaryRow)
    (hc : ctx.client_available = true) (hv : get_video_id url = some vid)
    (hrow : sums.find? (fun rr => rr.url == url) = some r)
    (hst : r.status = Status.complete) :
    (∀ (u1 u2 : Int) (us1 us2 : List UsageEvent),
      (process_video b ctx ⟨sums, us1⟩ url u1 false).map (fun x => (x.1, x.2.2)) =
      (process_video b ctx ⟨sums, us2⟩ url u2 false).map (fun x => (x.1, x.2.2))) ∧
    (∀ (u : Int) (us : List UsageEvent) (o : Outcome) (db' : DB) (tr : List Event),
      process_video b ctx ⟨sums, us⟩ url u false = Except.ok (o, db', tr) →
      db' = ⟨sums, us⟩ ∧ ∃ d, o = Outcome.cached d ∧ d.summary_text = r.summary_text) := by
  have key : ∀ (us : List UsageEvent) (u : Int),
      process_video b ctx ⟨sums, us⟩ url u false = process_cached b ctx ⟨sums, us⟩ url vid r :=
    fun us u => process_video_cached_eq b ctx ⟨sums, us⟩ url vid u r hc hv hrow hst
  constructor
  · intro u1 u2 us1 us2
    rw [key us1 u1, key us2 u2]
    unfold process_cached
    cases hd : b.get_video_details vid with
    | error e => rfl
    | ok dd => rfl
  · intro u us o db' tr h
    rw [key us u] at h
    unfold process_cached at h
    cases hd : b.get_video_details vid with
    | error e => rw [hd] at h; cases h
    | ok dd =>
      rw [hd] at h
      simp only [Except.ok.injEq, Prod.mk.injEq] at h
      exact ⟨h.2.1.symm, _, h.1.symm, rfl⟩

/-- C10 witness: users 1 and 2 receive the same cached status, data and
trace from the cached fixture. -/
theorem c10_witness :
    (process_video bOk ctx0 dbCached url0 1 false).map (fun x => (x.1, x.2.2)) =
    (process_video bOk ctx0 dbCached url0 2 false).map (fun x => (x.1, x.2.2)) :=
  (c10_cache_requester_independent bOk ctx0 [completeRow] url0 vid0 completeRow rfl
    (by decide) (by decide) rfl).1 1 2 [] []

/-- The uncached path catches every generation failure and returns an
Outcome, never an exception. -/
theorem uncached_is_ok (b : Backend) (ctx : Ctx) (db : DB) (url : String) (user : Int)
    (fn : Bool) (vid : String) :
    ∃ res, process_uncached b ctx db url user fn vid = Except.ok res := by
  unfold process_uncached
  rcases le_or_lt ctx.USER_DAILY_LIMIT (get_user_usage_today db user ctx.start_of_today)
    with hle | hlt
  · rw [if_pos hle]
    exact ⟨_, rfl⟩
  · rw [if_neg (Nat.not_le.mpr hlt)]
    exact ⟨_, rfl⟩

/-- C5 counterexample — refuting "process never raises": with a complete
cached row and a metadata backend call that raises a network error, the
invocation propagates the raw exception to its caller instead of returning
an Outcome (the cached-path metadata refresh sits outside the `try`). -/
theorem c5_counterexample :
    process_video bDetailsBoom ctx0 dbCached url0 1 false =
      Except.error (Exn.other "network down") := by decide

/-- C5 (amended) — the cached-path metadata refresh is the only call whose
exception escapes `process_video`: whenever the metadata backend call
returns instead of raising, the invocation returns an `ok` Outcome for
every input, flag and store. -/
theorem c5_no_raise_when_details_ok (b : Backend) (ctx : Ctx) (db : DB) (url : String)
    (user : Int) (fn : Bool)
    (h : ∀ v, ∃ rr, b.get_video_details v = Except.ok rr) :
    ∃ o db' tr, process_video b ctx db url user fn = Except.ok (o, db', tr) := by
  unfold process_video
  by_cases hca : ctx.client_available = false
  · rw [if_pos hca]
    exact ⟨_, _, _, rfl⟩
  · rw [if_neg hca]
    cases hvid : get_video_id url with
    | none => exact ⟨_, _, _, rfl⟩
    | some v =>
      cases hch : (if fn then none else get_summary_from_db db url) with
      | some rr =>
        dsimp only
        by_cases hcomp : (rr.status == Status.complete) = true
        · rw [if_pos hcomp]
          obtain ⟨res, hres⟩ := h v
          unfold process_cached
          rw [hres]
          exact ⟨_, _, _, rfl⟩
        · rw [if_neg hcomp]
          obtain ⟨⟨o, db', tr⟩, hh⟩ := uncached_is_ok b ctx db url user fn v
          exact ⟨o, db', tr, hh⟩
      | none =>
        obtain ⟨⟨o, db', tr⟩, hh⟩ := uncached_is_ok b ctx db url user fn v
        exact ⟨o, db', tr, hh⟩

/-- C5 witness: with a backend whose metadata call succeeds, the cached-row
invocation returns an Outcome instead of raising. -/
theorem c5_witness :
    (∀ v, ∃ rr, bOk.get_video_details v = Except.ok rr) ∧
    ∃ o db' tr, process_video bOk ctx0 dbCached url0 1 false = Except.ok (o, db', tr) :=
  ⟨fun _ => ⟨some dOk, rfl⟩,
   c5_no_raise_when_details_ok bOk ctx0 dbCached url0 1 false (fun _ => ⟨some dOk, rfl⟩)⟩

/-- Appending one in-window usage event of the user bumps the filtered
count by one. -/
theorem usage_count_append_one (us : List UsageEvent) (u : Int) (url : String)
    (ts sot : Nat) (h : sot ≤ ts) :
    (List.filter (fun e => e.user_id == u && decide (sot ≤ e.summarized_at))
        (us ++ [{ user_id := u, url := url, summarized_at := ts }])).length =
      (List.filter (fun e => e.user_id == u && decide (sot ≤ e.summarized_at)) us).length
        + 1 := by
  simp [List.filter_append, h]

/-- The generation phase always issues the metadata call, and either
completes (appending exactly the user's usage event) or fails (leaving the
usage table untouched). -/
theorem runGeneration_shape (b : Backend) (ctx : Ctx) (db : DB) (url : String)
    (user : Int) (vid : String) (o : Outcome) (db' : DB) (tr : List Event)
    (h : runGeneration b ctx db url user vid = (o, db', tr)) :
    Event.detailsCall ∈ tr ∧
    ((o.isComplete = true ∧
        db'.usage = db.usage ++ [{ user_id := user, url := url, summarized_at := ctx.now_ts }]) ∨
     (o.isComplete = false ∧ db'.usage = db.usage)) := by
  unfold runGeneration at h
  cases hd : b.get_video_details vid with
  | error e =>
    rw [hd] at h
    dsimp only at h
    simp only [Prod.mk.injEq] at h
    refine ⟨by rw [← h.2.2]; simp, Or.inr ⟨?_, ?_⟩⟩
    · rw [← h.1]; cases e <;> rfl
    · rw [← h.2.1]; cases e <;> rfl
  | ok dres =>
    rw [hd] at h
    cases dres with
    | none =>
      dsimp only at h
      simp only [Prod.mk.injEq] at h
      refine ⟨by rw [← h.2.2]; simp, Or.inr ⟨?_, ?_⟩⟩
      · rw [← h.1]; rfl
      · rw [← h.2.1]; rfl
    | some d =>
      dsimp only at h
      cases ht : b.get_transcript vid with
      | error e =>
        rw [ht] at h
        dsimp only at h
        simp only [Prod.mk.injEq] at h
        refine ⟨by rw [← h.2.2]; simp, Or.inr ⟨?_, ?_⟩⟩
        · rw [← h.1]; cases e <;> rfl
        · rw [← h.2.1]; cases e <;> rfl
      | ok tl =>
        rw [ht] at h
        obtain ⟨tx, lg⟩ := tl
        dsimp only at h
        cases hs : generate_summary b tx d.title lg with
        | error e =>
          rw [hs] at h
          dsimp only at h
          simp only [Prod.mk.injEq] at h
          refine ⟨by rw [← h.2.2]; simp, Or.inr ⟨?_, ?_⟩⟩
          · rw [← h.1]; cases e <;> rfl
          · rw [← h.2.1]; cases e <;> rfl
        | ok summary_text =>
          rw [hs] at h
          dsimp only at h
          simp only [Prod.mk.injEq] at h
          refine ⟨by rw [← h.2.2]; simp, Or.inl ⟨?_, ?_⟩⟩
          · rw [← h.1]; rfl
          · rw [← h.2.1]; rfl

/-- With no conflicting row, the insert succeeds and the invocation
proceeds to the generation phase over the store extended with the fresh
`processing` row. -/
theorem from_insert_shape (b : Backend) (ctx : Ctx) (db : DB) (url : String)
    (user : Int) (vid : String)
    (hany : db.summaries.any (fun r => r.url == url) = false) :
    process_from_insert b ctx db url user vid =
      runGeneration b ctx
        { summaries := db.summaries ++
            [{ url := url, video_title := "", channel_title := "", summary_text := "",
               status := Status.processing, requested_at := ctx.now_str }]
          usage := db.usage }
        url user vid := by
  unfold process_from_insert insert_processing_record
  rw [hany]
  rfl

/-- C4 counterexample — refuting "force_new unconditionally deletes the
row and runs fresh generation": a requester at the ceiling is rejected by
the quota check, which runs before the delete, so the complete row
survives and no backend call (not even the metadata refresh) is made. -/
theorem c4_counterexample :
    process_video bOk ctx0 dbAtLimit url0 1 true =
      Except.ok (Outcome.limit_exceeded (limit_msg 2), dbAtLimit, [Event.quotaCheck]) ∧
    get_summary_from_db dbAtLimit url0 = some completeRow :=
  ⟨by decide, by decide⟩

/-- C4 (amended) — for a requester under the ceiling, `force_new = true`
deletes any existing Job row and runs fresh generation on the emptied
slot: the run equals the insert-and-generate phase over the deleted store,
the metadata call is always attempted, and exactly one usage event is
consumed on completion while a backend failure consumes none. -/
theorem c4_force_new_under_ceiling (b : Backend) (ctx : Ctx) (db : DB) (url vid : String)
    (user : Int)
    (hc : ctx.client_available = true) (hv : get_video_id url = some vid)
    (husage : get_user_usage_today db user ctx.start_of_today < ctx.USER_DAILY_LIMIT)
    (hts : ctx.start_of_today ≤ ctx.now_ts) :
    process_video b ctx db url user true =
      Except.ok ((process_from_insert b ctx (delete_summary_record db url) url user vid).1,
        (process_from_insert b ctx (delete_summary_record db url) url user vid).2.1,
        Event.quotaCheck ::
          (process_from_insert b ctx (delete_summary_record db url) url user vid).2.2) ∧
    (∀ o db' tr, process_video b ctx db url user true = Except.ok (o, db', tr) →
      Event.detailsCall ∈ tr ∧
      (o.isComplete = true →
        get_user_usage_today db' user ctx.start_of_today =
          get_user_usage_today db user ctx.start_of_today + 1) ∧
      (o.isComplete = false →
        get_user_usage_today db' user ctx.start_of_today =
          get_user_usage_today db user ctx.start_of_today)) := by
  have h1 : process_video b ctx db url user true = process_uncached b ctx db url user true vid :=
    process_video_uncached_eq b ctx db url user true vid hc hv rfl
  have h2 : process_uncached b ctx db url user true vid =
      Except.ok ((process_from_insert b ctx (delete_summary_record db url) url user vid).1,
        (process_from_insert b ctx (delete_summary_record db url) url user vid).2.1,
        Event.quotaCheck ::
          (process_from_insert b ctx (delete_summary_record db url) url user vid).2.2) := by
    unfold process_uncached
    rw [if_neg (Nat.not_le.mpr husage)]
    simp [get_summary_of_delete]
  refine ⟨h1.trans h2, ?_⟩
  intro o db' tr h
  rw [h1.trans h2] at h
  simp only [Except.ok.injEq, Prod.mk.injEq] at h
  obtain ⟨ho, hdb, htr⟩ := h
  have hsh := from_insert_shape b ctx (delete_summary_record db url) url user vid
    (any_of_delete db url)
  have hrun := runGeneration_shape b ctx
    { summaries := (delete_summary_record db url).summaries ++
        [{ url := url, video_title := "", channel_title := "", summary_text := "",
           status := Status.processing, requested_at := ctx.now_str }]
      usage := (delete_summary_record db url).usage }
    url user vid
    (process_from_insert b ctx (delete_summary_record db url) url user vid).1
    (process_from_insert b ctx (delete_summary_record db url) url user vid).2.1
    (process_from_insert b ctx (delete_summary_record db url) url user vid).2.2
    (by rw [← hsh])
  refine ⟨?_, ?_, ?_⟩
  · rw [← htr]
    exact List.mem_cons_of_mem _ hrun.1
  · intro hcomp
    rcases hrun.2 with ⟨_, hus⟩ | ⟨hc2, _⟩
    · rw [← hdb]
      unfold get_user_usage_today
      rw [hus]
      exact usage_count_append_one db.usage user url ctx.now_ts ctx.start_of_today hts
    · rw [ho] at hc2
      rw [hcomp] at hc2
      cases hc2
  · intro hncomp
    rcases hrun.2 with ⟨hc2, _⟩ | ⟨_, hus⟩
    · rw [ho] at hc2
      rw [hncomp] at hc2
      cases hc2
    · rw [← hdb]
      unfold get_user_usage_today
      rw [hus]
      rfl

/-- C4 witness: under the ceiling, forcing regeneration over a cached row
equals the delete-then-generate pipeline. -/
theorem c4_witness :
    process_video bOk ctx0 dbCached url0 1 true =
      Except.ok ((process_from_insert bOk ctx0 (delete_summary_record dbCached url0) url0 1 vid0).1,
        (process_from_insert bOk ctx0 (delete_summary_record dbCached url0) url0 1 vid0).2.1,
        Event.quotaCheck ::
          (process_from_insert bOk ctx0 (delete_summary_record dbCached url0) url0 1 vid0).2.2) :=
  (c4_force_new_under_ceiling bOk ctx0 dbCached url0 vid0 1 rfl (by decide) (by decide)
    (by decide)).1

/-- A failing generation phase returns exactly the `except`-clause
classification of the first failing call, with the title recovered so far,
and marks the url's row `failed`. -/
theorem runGeneration_fail (b : Backend) (ctx : Ctx) (db : DB) (url : String)
    (user : Int) (vid : String) (e : Exn)
    (hfail : first_failure b vid = some e) :
    ∀ o db' tr, runGeneration b ctx db url user vid = (o, db', tr) →
      o = (handleExn e (recovered_title b vid) db url).1 ∧
      db' = update_summary_status db url Status.failed := by
  intro o db' tr h
  unfold runGeneration at h
  unfold first_failure at hfail
  unfold recovered_title
  cases hd : b.get_video_details vid with
  | error e' =>
    rw [hd] at h hfail
    dsimp only at h hfail ⊢
    injection hfail with he
    subst he
    simp only [Prod.mk.injEq] at h
    exact ⟨h.1.symm, by rw [← h.2.1]; cases e' <;> rfl⟩
  | ok dres =>
    rw [hd] at h hfail
    cases dres with
    | none =>
      dsimp only at h hfail ⊢
      injection hfail with he
      subst he
      simp only [Prod.mk.injEq] at h
      exact ⟨h.1.symm, by rw [← h.2.1]; rfl⟩
    | some d =>
      dsimp only at h hfail ⊢
      cases ht : b.get_transcript vid with
      | error e' =>
        rw [ht] at h hfail
        dsimp only at h hfail
        injection hfail with he
        subst he
        simp only [Prod.mk.injEq] at h
        exact ⟨h.1.symm, by rw [← h.2.1]; cases e' <;> rfl⟩
      | ok tl =>
        rw [ht] at h hfail
        obtain ⟨tx, lg⟩ := tl
        dsimp only at h hfail
        cases hs : generate_summary b tx d.title lg with
        | error e' =>
          rw [hs] at h hfail
          dsimp only at h hfail
          injection hfail with he
          subst he
          simp only [Prod.mk.injEq] at h
          exact ⟨h.1.symm, by rw [← h.2.1]; cases e' <;> rfl⟩
        | ok summary_text =>
          rw [hs] at h hfail
          cases hfail

/-- C6 — when the store has no row for the url (so the fresh `processing`
row is inserted) and the generation phase raises, the invocation returns
the `except`-clause classification of the first failing call —
`quota_exceeded` for the backend quota exception, the transcript or
generic `error` otherwise — carrying the partial title recovered before
the failure, and the Job row for the url ends with status `failed`. -/
theorem c6_failures_marked_failed (b : Backend) (ctx : Ctx) (db : DB) (url : String)
    (user : Int) (vid : String) (e : Exn)
    (hnorow : get_summary_from_db db url = none)
    (hfail : first_failure b vid = some e) :
    ∀ o db' tr, process_from_insert b ctx db url user vid = (o, db', tr) →
      o = (handleExn e (recovered_title b vid) db url).1 ∧
      ∃ rr, get_summary_from_db db' url = some rr ∧ rr.status = Status.failed := by
  intro o db' tr h
  have hany : db.summaries.any (fun r => r.url == url) = false :=
    find?_none_any_false _ _ hnorow
  rw [from_insert_shape b ctx db url user vid hany] at h
  have hfl := runGeneration_fail b ctx
    { summaries := db.summaries ++
        [{ url := url, video_title := "", channel_title := "", summary_text := "",
           status := Status.processing, requested_at := ctx.now_str }]
      usage := db.usage }
    url user vid e hfail o db' tr h
  refine ⟨by rw [hfl.1]; cases e <;> rfl, ?_⟩
  rw [hfl.2, get_summary_of_update]
  have hfind : get_summary_from_db
      { summaries := db.summaries ++
          [{ url := url, video_title := "", channel_title := "", summary_text := "",
             status := Status.processing, requested_at := ctx.now_str }]
        usage := db.usage } url =
      some { url := url, video_title := "", channel_title := "", summary_text := "",
             status := Status.processing, requested_at := ctx.now_str } := by
    unfold get_summary_from_db at hnorow ⊢
    rw [List.find?_append, hnorow]
    simp [List.find?]
  rw [hfind]
  exact ⟨_, rfl, rfl⟩

/-- C6 witness: over an empty store, a backend whose Gemini call reports
quota exhaustion yields the `quota_exceeded` classification with the
recovered title and a `failed` row. -/
theorem c6_witness :
    (process_from_insert bQuota ctx0 dbEmpty url0 1 vid0).1 =
      (handleExn Exn.quotaExceeded (recovered_title bQuota vid0) dbEmpty url0).1 ∧
    ∃ rr, get_summary_from_db (process_from_insert bQuota ctx0 dbEmpty url0 1 vid0).2.1 url0 =
        some rr ∧ rr.status = Status.failed :=
  c6_failures_marked_failed bQuota ctx0 dbEmpty url0 1 vid0 Exn.quotaExceeded rfl (by decide)
    (process_from_insert bQuota ctx0 dbEmpty url0 1 vid0).1
    (process_from_insert bQuota ctx0 dbEmpty url0 1 vid0).2.1
    (process_from_insert bQuota ctx0 dbEmpty url0 1 vid0).2.2 rfl

/-- Once a hard-stop flag is latched, the rest of the batch is recorded as
skipped: one skip entry and one failure count per item, the store
untouched, and no backend call. -/
theorem batchLoop_skips_all (b : Backend) (ctx : Ctx) (user : Int) (fn : Bool) :
    ∀ (urls : List String) (acc : BatchAcc) (db : DB),
      acc.user_limit_hit = true ∨ acc.quota_hit = true →
      batchLoop b ctx user fn acc db urls =
        Except.ok ({ acc with
                     fail_count := acc.fail_count + urls.length
                     results_log := acc.results_log ++ urls.map skip_entry }, db, []) := by
  intro urls
  induction urls with
  | nil =>
    intro acc db h
    simp [batchLoop]
  | cons u rest ih =>
    intro acc db h
    have hstep : batchStep b ctx acc db u user fn =
        Except.ok ({ acc with
                     fail_count := acc.fail_count + 1
                     results_log := acc.results_log ++ [skip_entry u] }, db, []) := by
      unfold batchStep
      rcases h with h | h
      · rw [if_pos h]
      · by_cases hu : acc.user_limit_hit = true
        · rw [if_pos hu]
        · rw [if_neg hu, if_pos h]
    unfold batchLoop
    rw [hstep]
    dsimp only
    rw [ih _ _ (by rcases h with h | h; exact Or.inl h; exact Or.inr h)]
    dsimp only
    simp [List.append_assoc]
    omega

/-- C7 — the two hard-stop conditions latch for the rest of the batch:
with a flag set, every remaining item is recorded as skipped without
invoking the orchestrator or the backend (no store change and no backend
event); and the item that returns `limit_exceeded` (resp.
`quota_exceeded`) sets its flag, after which the whole remaining batch is
skipped in the same way. -/
theorem c7_hard_stop_latches (b : Backend) (ctx : Ctx) (user : Int) (fn : Bool) :
    (∀ (urls : List String) (acc : BatchAcc) (db : DB),
      acc.user_limit_hit = true ∨ acc.quota_hit = true →
      batchLoop b ctx user fn acc db urls =
        Except.ok ({ acc with
                     fail_count := acc.fail_count + urls.length
                     results_log := acc.results_log ++ urls.map skip_entry }, db, [])) ∧
    (∀ (acc : BatchAcc) (db db1 : DB) (u : String) (rest : List String) (msg : String)
        (tr : List Event),
      acc.user_limit_hit = false → acc.quota_hit = false →
      process_video b ctx db u user fn = Except.ok (Outcome.limit_exceeded msg, db1, tr) →
      batchLoop b ctx user fn acc db (u :: rest) =
        Except.ok ({ acc with
                     user_limit_hit := true
                     fail_count := acc.fail_count + 1 + rest.length
                     results_log := (acc.results_log ++
                       [{ title := (fetch_progress_title b u).1, url := u,
                          status := warn_failed_status, reason := some msg }]) ++
                       rest.map skip_entry },
          db1, (fetch_progress_title b u).2 ++ tr)) ∧
    (∀ (acc : BatchAcc) (db db1 : DB) (u : String) (rest : List String) (msg vt : String)
        (tr : List Event),
      acc.user_limit_hit = false → acc.quota_hit = false →
      process_video b ctx db u user fn = Except.ok (Outcome.quota_exceeded msg vt, db1, tr) →
      batchLoop b ctx user fn acc db (u :: rest) =
        Except.ok ({ acc with
                     quota_hit := true
                     fail_count := acc.fail_count + 1 + rest.length
                     results_log := (acc.results_log ++
                       [{ title := vt, url := u, status := stop_failed_status,
                          reason := some msg }]) ++
                       rest.map skip_entry },
          db1, (fetch_progress_title b u).2 ++ tr)) := by
  refine ⟨batchLoop_skips_all b ctx user fn, ?_, ?_⟩
  · intro acc db db1 u rest msg tr hu hq hproc
    have hstep : batchStep b ctx acc db u user fn =
        Except.ok ({ acc with
                     user_limit_hit := true
                     fail_count := acc.fail_count + 1
                     results_log := acc.results_log ++
                       [{ title := (fetch_progress_title b u).1, url := u,
                          status := warn_failed_status, reason := some msg }] },
          db1, (fetch_progress_title b u).2 ++ tr) := by
      unfold batchStep
      rw [if_neg (by simp [hu]), if_neg (by simp [hq]), hproc]
    unfold batchLoop
    rw [hstep]
    dsimp only
    rw [batchLoop_skips_all b ctx user fn rest _ db1 (Or.inl rfl)]
    dsimp only
    simp [List.append_assoc]
  · intro acc db db1 u rest msg vt tr hu hq hproc
    have hstep : batchStep b ctx acc db u user fn =
        Except.ok ({ acc with
                     quota_hit := true
                     fail_count := acc.fail_count + 1
                     results_log := acc.results_log ++
                       [{ title := vt, url := u, status := stop_failed_status,
                          reason := some msg }] },
          db1, (fetch_progress_title b u).2 ++ tr) := by
      unfold batchStep
      rw [if_neg (by simp [hu]), if_neg (by simp [hq]), hproc]
    unfold batchLoop
    rw [hstep]
    dsimp only
    rw [batchLoop_skips_all b ctx user fn rest _ db1 (Or.inr rfl)]
    dsimp only
    simp [List.append_assoc]

/-- C7 witness: a batch whose first item trips the daily limit records the
two remaining items as skipped with no further store change or backend
call. -/
theorem c7_witness :
    batchLoop bOk ctx0 1 false initAcc dbOver [url0, "r2", "r3"] =
      Except.ok ({ initAcc with
                   user_limit_hit := true
                   fail_count := initAcc.fail_count + 1 + 2
                   results_log := (initAcc.results_log ++
                     [{ title := (fetch_progress_title bOk url0).1, url := url0,
                        status := warn_failed_status,
                        reason := some (limit_msg ctx0.USER_DAILY_LIMIT) }]) ++
                     ["r2", "r3"].map skip_entry },
        dbOver, (fetch_progress_title bOk url0).2 ++ [Event.quotaCheck]) :=
  (c7_hard_stop_latches bOk ctx0 1 false).2.1 initAcc dbOver dbOver url0 ["r2", "r3"]
    (limit_msg ctx0.USER_DAILY_LIMIT) [Event.quotaCheck] rfl rfl (by decide)

/-- C8 — evaluating the batch driver at the failing input: a batch holding
one unrecognised URL string makes the orchestrator return the
`invalid_url` status with a bare-string payload, and the driver's `else`
branch unpacks that string into `(error_message, video_title)`, raising a
`ValueError` instead of recording the item's report line. -/
theorem c8_driver_crash :
    handle_multiple_videos bOk ctx0 dbEmpty ["x"] 1 false =
      Except.error (Exn.other unpack_error_msg) := by decide

/-- Appending strings concatenates the underlying code-point lists. -/
theorem data_append (a b : String) : (a ++ b).data = a.data ++ b.data := by
  cases a
  cases b
  rfl

/-- Python `len` of a concatenation. -/
theorem pyLen_append (a b : String) : pyLen (a ++ b) = pyLen a + pyLen b := by
  simp [pyLen, data_append]

/-- Python `len` of a slice. -/
theorem pyLen_slice (s : String) (n : Nat) : pyLen (pySlice s n) = min n (pyLen s) := by
  simp [pyLen, pySlice]

/-- The join of `n + 1` copies of one line measures `n + 1` line lengths
plus `n` separators. -/
theorem joinLines_replicate_len (s : String) :
    ∀ n, pyLen (joinLines (List.replicate (n + 1) s)) = (n + 1) * pyLen s + n := by
  intro n
  induction n with
  | zero => simp [joinLines]
  | succ k ih =>
    calc pyLen (joinLines (List.replicate (k + 2) s))
        = pyLen (s ++ "\n" ++ joinLines (List.replicate (k + 1) s)) := rfl
      _ = pyLen s + pyLen "\n" + pyLen (joinLines (List.replicate (k + 1) s)) := by
            rw [pyLen_append, pyLen_append]
      _ = pyLen s + 1 + ((k + 1) * pyLen s + k) := by rw [ih]; rfl
      _ = (k + 1 + 1) * pyLen s + (k + 1) := by ring

/-- The rendered length of the C9 fixture entry. -/
theorem c9line_len : pyLen (render_log_line c9entry) = 104 := by decide

/-- The joined C9 fixture report measures 4724 code points. -/
theorem render_recap_c9log_len : pyLen (render_recap c9log) = 4724 := by
  have h45 : (45 : Nat) = 44 + 1 := by norm_num
  unfold render_recap c9log
  rw [List.map_replicate, h45, joinLines_replicate_len, c9line_len]

/-- The first 38 fixture entries plus separators end at 3989 code
points. -/
theorem render_recap_c9log_take38_len :
    pyLen (render_recap (c9log.take 38)) = 3989 := by
  have hmin : (38 : Nat) = min 38 45 := by norm_num
  have h38 : (38 : Nat) = 37 + 1 := by norm_num
  unfold render_recap c9log
  rw [List.take_replicate, ← hmin, List.map_replicate, h38, joinLines_replicate_len,
    c9line_len]

/-- The first 39 fixture entries plus separators end at 4094 code
points. -/
theorem render_recap_c9log_take39_len :
    pyLen (render_recap (c9log.take 39)) = 4094 := by
  have hmin : (39 : Nat) = min 39 45 := by norm_num
  have h39 : (39 : Nat) = 38 + 1 := by norm_num
  unfold render_recap c9log
  rw [List.take_replicate, ← hmin, List.map_replicate, h39, joinLines_replicate_len,
    c9line_len]

/-- C9 counterexample — refuting "truncation never cuts in the middle of
an entry": this 45-entry report joins to 4724 code points; the driver cuts
it at code point 4090, which falls strictly inside the 39th rendered entry
(the first 38 entries with their separator end at 3990, the 39th at 4094),
so the emitted report ends mid-entry with the marker appended. -/
theorem c9_counterexample :
    4096 < pyLen (render_recap c9log) ∧
    truncate_recap (render_recap c9log) = pySlice (render_recap c9log) 4090 ++ "\n..." ∧
    pyLen (render_recap (c9log.take 38)) + 1 < 4090 ∧
    4090 < pyLen (render_recap (c9log.take 39)) ∧
    truncate_recap (render_recap c9log) ≠ render_recap c9log := by
  have h1 := render_recap_c9log_len
  have htr : truncate_recap (render_recap c9log) =
      pySlice (render_recap c9log) 4090 ++ "\n..." := by
    unfold truncate_recap
    rw [if_pos (by rw [h1]; norm_num)]
  refine ⟨by rw [h1]; norm_num, htr, by rw [render_recap_c9log_take38_len]; norm_num,
    by rw [render_recap_c9log_take39_len]; norm_num, ?_⟩
  intro heq
  rw [htr] at heq
  have hlen := congrArg pyLen heq
  have h4 : pyLen "\n..." = 4 := rfl
  rw [pyLen_append, pyLen_slice, h1, h4] at hlen
  omega

/-- C9 (amended) — a rendered report within the 4096-code-point cap is
emitted unchanged; a longer one is replaced by its first 4090 code points
with the "\n..." continuation marker appended, yielding exactly 4094 code
points (within the cap) — a raw character cut that may fall inside an
entry. -/
theorem c9_truncation (log : List LogEntry) :
    (pyLen (render_recap log) ≤ 4096 →
      truncate_recap (render_recap log) = render_recap log) ∧
    (4096 < pyLen (render_recap log) →
      truncate_recap (render_recap log) = pySlice (render_recap log) 4090 ++ "\n..." ∧
      pyLen (truncate_recap (render_recap log)) = 4094) := by
  constructor
  · intro h
    unfold truncate_recap
    rw [if_neg (Nat.not_lt.mpr h)]
  · intro h
    have htr : truncate_recap (render_recap log) =
        pySlice (render_recap log) 4090 ++ "\n..." := by
      unfold truncate_recap
      rw [if_pos h]
    refine ⟨htr, ?_⟩
    rw [htr, pyLen_append, pyLen_slice]
    have h4 : pyLen "\n..." = 4 := rfl
    rw [h4]
    omega

/-- C9 witness: a one-line report is emitted unchanged; the oversized
fixture report is cut at 4090 code points with the marker appended. -/
theorem c9_truncation_witness :
    truncate_recap (render_recap [skip_entry "u"]) = render_recap [skip_entry "u"] ∧
    truncate_recap (render_recap c9log) =
      pySlice (render_recap c9log) 4090 ++ "\n..." :=
  ⟨(c9_truncation [skip_entry "u"]).1 (by decide),
   ((c9_truncation c9log).2 (by rw [render_recap_c9log_len]; norm_num)).1⟩

end Bys
